import Mathlib

/-!
Verification of the diagnostic-rendering subsystem (src/error) of the ante
compiler: a shallow embedding of the message taxonomy, styling policy,
path formatter and renderer, together with theorems settling the stated
properties of the subsystem.

Conventions of the embedding:
* Rust machine integers (u32, usize) become Nat; `saturating_sub` is plain
  Nat subtraction (which saturates); a raw usize subtraction that would
  underflow, a string slice taken outside the string or off a UTF-8
  character boundary, and a `todo!()` all abort the surrounding render, so
  the renderer returns the text written so far paired with an optional
  RenderPanic describing the abort.
* The file read in `read_file_or_panic` is passed in as an explicit
  `file_contents : String` argument, making the renderer the pure function
  of message, cache, styling and file contents that it is in the source.
-/

namespace Ante

/-! ## Styling (src/error/styling.rs, plus the owo_colors Style values it uses) -/

/-- Modelled from the spec: an owo_colors terminal style, reduced to the pair
of emphasis markers it wraps a string in (empty for a no-op style). The
owo_colors crate is an external collaborator; only this wrapping behaviour
is consumed. -/
structure Style where
  pre : String
  suf : String
deriving DecidableEq

/-- Modelled from the spec: applying a style to a string, as in
`value.style(style)` rendered through Display. -/
def styled (style : Style) (s : String) : String :=
  style.pre ++ s ++ style.suf

/-- Style::new() in owo_colors: the empty, no-op style. -/
def Style.new : Style := ⟨"", ""⟩

/-- Styling, from src/error/styling.rs. -/
structure Styling where
  location : Style
  header_error : Style
  header_warning : Style
  header_note : Style
  type_ : Style
  wrong_type : Style
  trait_ : Style
  line_wrong_part : Style
  underline : Bool

/-- Styling::no_color, from src/error/styling.rs. -/
def Styling.no_color : Styling :=
  { location := Style.new
    header_error := Style.new
    header_warning := Style.new
    header_note := Style.new
    type_ := Style.new
    wrong_type := Style.new
    trait_ := Style.new
    line_wrong_part := Style.new
    underline := true }

/-- Styling::colored, from src/error/styling.rs; the concrete ANSI codes are
those of the owo_colors styles named there (italic, red+bold, yellow+bold,
purple+bold, green, red, blue, red). -/
def Styling.colored : Styling :=
  { location := ⟨"\x1b[3m", "\x1b[0m"⟩
    header_error := ⟨"\x1b[1;31m", "\x1b[0m"⟩
    header_warning := ⟨"\x1b[1;33m", "\x1b[0m"⟩
    header_note := ⟨"\x1b[1;35m", "\x1b[0m"⟩
    type_ := ⟨"\x1b[32m", "\x1b[0m"⟩
    wrong_type := ⟨"\x1b[31m", "\x1b[0m"⟩
    trait_ := ⟨"\x1b[34m", "\x1b[0m"⟩
    line_wrong_part := ⟨"\x1b[31m", "\x1b[0m"⟩
    underline := false }

/-! ## External type representation and module cache

The type representation and module cache are external collaborators
(crate::types, crate::cache); the renderer consumes only the ability to
display a type through the cache. -/

/-- Modelled from the spec: the external type value, consumed only through
its display name. -/
abbrev Ty := String

/-- Modelled from the spec: crate::types::FunctionType, consumed only by
wrapping it back into a type value for display. -/
abbrev FunctionType := String

/-- Modelled from the spec: Type::Function, wrapping a function type back
into a type value. -/
def Ty.function (f : FunctionType) : Ty := f

/-- Modelled from the spec: the external type-naming service
`type.display(cache)`, reduced to the one capability used. -/
structure ModuleCache where
  nameOf : Ty → String

/-- A concrete cache whose naming service is the identity, used to evaluate
the renderer on concrete inputs. -/
def idCache : ModuleCache := ⟨fun t => t⟩

/-! ## Path formatter (src/error/mod.rs, OsAgnosticPath) -/

/-- std::path::Component, the cases distinguished by the path formatter.
The host-specific prefix component (Component::Prefix, e.g. a drive
designator) is named Drive here because its Rust name is unavailable. -/
inductive Component
  | CurDir
  | Normal (s : String)
  | ParentDir
  | Drive (s : String)
  | RootDir
deriving DecidableEq, BEq

/-- The text a single component contributes in the OsAgnosticPath Display
impl (src/error/mod.rs lines 122-135). -/
def renderComponent : Component → String
  | Component.CurDir => "."
  | Component.Normal s => s
  | Component.ParentDir => ".."
  | Component.Drive _ => ""
  | Component.RootDir => "/"

/-- The component loop of the OsAgnosticPath Display impl
(src/error/mod.rs lines 116-137): the Bool is display_separator. -/
def osAgnosticGo : Bool → List Component → String
  | _, [] => ""
  | display_separator, c :: rest =>
    (if display_separator then "/" else "") ++ renderComponent c ++
      osAgnosticGo (c != Component.RootDir) rest

/-- OsAgnosticPath Display (src/error/mod.rs lines 114-139):
display_separator starts false. -/
def osAgnosticPath (components : List Component) : String :=
  osAgnosticGo false components

/-! ## Location (src/error/location.rs, not part of the sources) -/

/-- Modelled from the spec: the start position of a Location, 1-based line
and column. src/error/location.rs is not among the sources. -/
structure Position where
  line : Nat
  column : Nat
deriving DecidableEq

/-- Modelled from the spec: OwnedLocation, a filename (held as its parsed
path components), a 1-based start position, and a span length in bytes.
src/error/location.rs is not among the sources; the renderer reads exactly
these fields. -/
structure OwnedLocation where
  filename : List Component
  start : Position
  length : Nat
deriving DecidableEq

/-- Display for OwnedLocation (src/error/mod.rs lines 148-152):
"path:line:column" through the path formatter. -/
def displayOwnedLocation (loc : OwnedLocation) : String :=
  osAgnosticPath loc.filename ++ ":" ++ toString loc.start.line ++ ":" ++
    toString loc.start.column

/-! ## Message taxonomy (src/error/error.rs, warning.rs, note.rs, mod.rs) -/

/-- CompilationError from src/error/error.rs; constructor fields appear in
the declared field order (got before expected where Rust declares got
first). -/
inductive CompilationError
  | MismatchedParameters (got expected : Ty)
  | RefRequiredForAssignment (got : Ty)
  | CannotAssignToRef (got expected : Ty)
  | ValueIsNotAFunction (got : Ty)
  | InvalidNumberOfParameters (function : FunctionType) (got expected : Nat)
deriving DecidableEq

/-- CompilationWarning from src/error/warning.rs: only the Todo placeholder. -/
inductive CompilationWarning
  | Todo
deriving DecidableEq

/-- CompilationNote from src/error/note.rs: only the Todo placeholder. -/
inductive CompilationNote
  | Todo
deriving DecidableEq

/-- MessageType from src/error/mod.rs. -/
inductive MessageType
  | Error (e : CompilationError)
  | Warning (w : CompilationWarning)
  | Note (n : CompilationNote)

/-- CompilationMessage from src/error/mod.rs. -/
structure CompilationMessage where
  message : MessageType
  location : OwnedLocation

/-- CompilationMessage::is_error (src/error/mod.rs lines 64-66). -/
def CompilationMessage.is_error (m : CompilationMessage) : Bool :=
  match m.message with
  | MessageType.Error _ => true
  | _ => false

/-- The ways a render can abort, distinguishing the Rust panics that the
rendering code can raise. -/
inductive RenderPanic
  | todoUnimplemented
  | usizeUnderflow
  | charBoundary
deriving DecidableEq

/-- Display for DisplayableError (src/error/error.rs lines 50-95): each
branch writes its template line followed by the newline of writeln. -/
def displayError (error : CompilationError) (cache : ModuleCache)
    (styling : Styling) : String :=
  match error with
  | CompilationError.MismatchedParameters got expected =>
    ("Mismatched parameters: expected " ++ styled styling.type_ (cache.nameOf expected) ++
      ", got " ++ styled styling.wrong_type (cache.nameOf got)) ++ "\n"
  | CompilationError.RefRequiredForAssignment got =>
    ("Expression of type " ++ styled styling.wrong_type (cache.nameOf got) ++
      " must be a `ref a` type to be assigned to") ++ "\n"
  | CompilationError.CannotAssignToRef got expected =>
    ("Cannot assign expression of type " ++ styled styling.wrong_type (cache.nameOf got) ++
      " to a ref of type " ++ styled styling.type_ (cache.nameOf expected)) ++ "\n"
  | CompilationError.ValueIsNotAFunction got =>
    ("Value being called is not a function, it is a " ++
      styled styling.wrong_type (cache.nameOf got)) ++ "\n"
  | CompilationError.InvalidNumberOfParameters function got expected =>
    ("Function " ++ styled styling.wrong_type (cache.nameOf (Ty.function function)) ++
      " declared to take " ++ styled styling.type_ (toString expected) ++
      " parameter" ++ (if expected < 2 then "" else "s") ++
      ", but " ++ styled styling.wrong_type (toString got) ++ " were supplied") ++ "\n"

/-- Display for DisplayableWarning (src/error/warning.rs lines 34-42): the
Todo placeholder hits todo!(), aborting. -/
def displayWarning (w : CompilationWarning) (_cache : ModuleCache)
    (_styling : Styling) : Except RenderPanic String :=
  match w with
  | CompilationWarning.Todo => Except.error RenderPanic.todoUnimplemented

/-- Display for DisplayableNote (src/error/note.rs lines 30-38): the Todo
placeholder hits todo!(), aborting. -/
def displayNote (n : CompilationNote) (_cache : ModuleCache)
    (_styling : Styling) : Except RenderPanic String :=
  match n with
  | CompilationNote.Todo => Except.error RenderPanic.todoUnimplemented

/-- The body dispatch of the renderer (src/error/mod.rs lines 86-90): each
arm is writeln of a payload Display value, so a further newline is appended
to whatever that Display produced. -/
def messageBody (message : MessageType) (cache : ModuleCache)
    (styling : Styling) : Except RenderPanic String :=
  match message with
  | MessageType.Error e => Except.ok (displayError e cache styling ++ "\n")
  | MessageType.Warning w => (displayWarning w cache styling).map (fun s => s ++ "\n")
  | MessageType.Note n => (displayNote n cache styling).map (fun s => s ++ "\n")

/-! ## Renderer (src/error/mod.rs, Display for DisplayableMessage) -/

/-- Drops a trailing carriage return, as Rust str::lines does for a line
that ended in a CRLF sequence. -/
def stripCR (l : List Char) : List Char :=
  if l.getLast? = some '\r' then l.dropLast else l

/-- Splits a character list at every newline character; always returns at
least one (possibly empty) group. -/
def splitNL : List Char → List (List Char)
  | [] => [[]]
  | c :: cs =>
    match splitNL cs with
    | [] => [[c]]
    | g :: gs => if c = '\n' then [] :: g :: gs else (c :: g) :: gs

/-- Turns newline-split groups into the lines Rust str::lines yields: every
group but the last was terminated by a newline (its trailing CR, if any, is
stripped); an empty final group comes from a trailing line ending and
yields no line, while a nonempty final group is a line kept verbatim. -/
def rustLinesCore : List (List Char) → List (List Char)
  | [] => []
  | [last] => if last = [] then [] else [last]
  | g :: rest => stripCR g :: rustLinesCore rest

/-- Rust str::lines over the file contents. -/
def rustLines (s : String) : List (List Char) :=
  rustLinesCore (splitNL s.data)

/-- The source-line selection of the renderer (src/error/mod.rs line 79):
1-based line number, empty line when the file has fewer lines. -/
def selectLine (file_contents : String) (line : Nat) : List Char :=
  (rustLines file_contents).getD (line - 1) []

/-- Byte length of a character list under UTF-8, Rust str::len. -/
def utf8Len : List Char → Nat
  | [] => 0
  | c :: rest => c.utf8Size + utf8Len rest

/-- The characters making up the first n bytes of the list, or none when n
overruns the list or falls inside a character: Rust slicing below byte
index n. -/
def takeBytes : Nat → List Char → Option (List Char)
  | 0, _ => some []
  | _ + 1, [] => none
  | n + 1, c :: cs =>
    if c.utf8Size ≤ n + 1 then (takeBytes (n + 1 - c.utf8Size) cs).map (fun l => c :: l)
    else none

/-- The characters after the first n bytes of the list, or none when n
overruns the list or falls inside a character: Rust slicing from byte
index n. -/
def dropBytes : Nat → List Char → Option (List Char)
  | 0, cs => some cs
  | _ + 1, [] => none
  | n + 1, c :: cs =>
    if c.utf8Size ≤ n + 1 then dropBytes (n + 1 - c.utf8Size) cs
    else none

/-- The highlighted byte range computation (src/error/mod.rs lines 80-82):
start_column is column saturating-minus 1; location_len is the span length
capped by `line.len() - start_column`, a raw usize subtraction that aborts
when start_column exceeds the line byte length; the pair returned is
(start_column, end_column). -/
def highlightRange (column length line_len : Nat) : Option (Nat × Nat) :=
  if column - 1 ≤ line_len then
    some (column - 1, (column - 1) + min length (line_len - (column - 1)))
  else none

/-- The header line (src/error/mod.rs line 84): the styled location, a bar,
the word "error:" in the error-header style regardless of severity, a
trailing space, and the newline of writeln. -/
def headerLine (loc : OwnedLocation) (styling : Styling) : String :=
  styled styling.location (displayOwnedLocation loc) ++ " | " ++
    styled styling.header_error "error:" ++ " " ++ "\n"

/-- The snippet line (src/error/mod.rs lines 92-98): the line before the
highlight, the highlighted byte range in the line_wrong_part style, the
rest of the line, and the newline of writeln; aborts when a slice boundary
is not a character boundary. -/
def snippetLine (line : List Char) (start_column end_column : Nat)
    (styling : Styling) : Option String :=
  match takeBytes start_column line, dropBytes start_column line,
      dropBytes end_column line with
  | some a, some afterStart, some c =>
    match takeBytes (end_column - start_column) afterStart with
    | some b =>
      some (String.mk a ++ styled styling.line_wrong_part (String.mk b) ++
        String.mk c ++ "\n")
    | none => none
  | _, _, _ => none

/-- Rust's "^".repeat(n). -/
def caretRun (n : Nat) : String :=
  String.mk (List.replicate n '^')

/-- Rust's right-justifying format specifier: pad with spaces on the left
up to the requested width. -/
def rjust (width : Nat) (s : String) : String :=
  String.mk (List.replicate (width - s.length) ' ') ++ s

/-- The marker line (src/error/mod.rs lines 100-102): emitted only when
styling.underline is set or the highlighted range is empty; a run of
location_len carets right-justified to width end_column. -/
def markerLine (styling : Styling) (location_len end_column : Nat) : String :=
  if styling.underline || location_len == 0 then
    rjust end_column (caretRun location_len) ++ "\n"
  else ""

/-- Display for DisplayableMessage (src/error/mod.rs lines 76-105): select
the source line, compute the highlight range (aborting on the usize
underflow before anything is written), then write header, body, snippet
and marker in order, stopping at the first abort. Returns the text written
so far and the panic that stopped the render, if any. -/
def renderMessage (msg : CompilationMessage) (cache : ModuleCache)
    (styling : Styling) (file_contents : String) : String × Option RenderPanic :=
  let line := selectLine file_contents msg.location.start.line
  match highlightRange msg.location.start.column msg.location.length (utf8Len line) with
  | none => ("", some RenderPanic.usizeUnderflow)
  | some (start_column, end_column) =>
    let header := headerLine msg.location styling
    match messageBody msg.message cache styling with
    | Except.error p => (header, some p)
    | Except.ok body =>
      match snippetLine line start_column end_column styling with
      | none => (header ++ body, some RenderPanic.charBoundary)
      | some snippet =>
        (header ++ body ++ snippet ++
          markerLine styling (end_column - start_column) end_column, none)

/-! ## Helper instances and lemmas -/

instance {ε α : Type} [DecidableEq ε] [DecidableEq α] : DecidableEq (Except ε α)
  | Except.ok x, Except.ok y =>
    if h : x = y then Decidable.isTrue (congrArg Except.ok h)
    else Decidable.isFalse (fun hh => h (Except.ok.inj hh))
  | Except.ok _, Except.error _ => Decidable.isFalse (fun hh => Except.noConfusion hh)
  | Except.error _, Except.ok _ => Decidable.isFalse (fun hh => Except.noConfusion hh)
  | Except.error x, Except.error y =>
    if h : x = y then Decidable.isTrue (congrArg Except.error h)
    else Decidable.isFalse (fun hh => h (Except.error.inj hh))

theorem append_newline_ne_empty (s : String) : s ++ "\n" ≠ "" := by
  cases s with
  | mk l =>
    intro h
    have h2 : l ++ ['\n'] = ([] : List Char) := congrArg String.data h
    simp at h2

/-! ## C1: the highlighted byte range -/

/-- C1 counterexample: with start column 2 on an empty line the claimed
range computation does not succeed; the usize subtraction underflows and
the whole render aborts before writing anything, refuting the claim that
the computation never fails when the start column exceeds the line byte
length. -/
theorem C1_column_past_line_end_aborts :
    highlightRange 2 5 0 = none ∧
    renderMessage ⟨MessageType.Error (CompilationError.MismatchedParameters "Bool" "Int"),
      ⟨[Component.Normal "f"], ⟨1, 2⟩, 5⟩⟩ idCache Styling.no_color "" =
      ("", some RenderPanic.usizeUnderflow) := by
  exact ⟨rfl, by decide⟩

/-- C1 (amended): provided the start column minus one does not exceed the
line byte length, the highlight range computation succeeds with
lo = column - 1, hi = min (lo + length) line_len, and 0 ≤ lo ≤ hi ≤
line_len; outside that precondition it aborts. -/
theorem C1_highlight_range_clamped (column length line_len : Nat)
    (h : column - 1 ≤ line_len) :
    ∃ lo hi, highlightRange column length line_len = some (lo, hi) ∧
      lo = column - 1 ∧ hi = min (lo + length) line_len ∧ lo ≤ hi ∧ hi ≤ line_len := by
  refine ⟨column - 1, (column - 1) + min length (line_len - (column - 1)),
    ?_, rfl, ?_, ?_, ?_⟩
  · simp [highlightRange, h]
  · omega
  · omega
  · omega

/-- C1 witness: the amended theorem evaluated at column 3, length 5 on a
line of 10 bytes. -/
theorem C1_highlight_range_clamped_witness :
    ∃ lo hi, highlightRange 3 5 10 = some (lo, hi) ∧
      lo = 3 - 1 ∧ hi = min (lo + 5) 10 ∧ lo ≤ hi ∧ hi ≤ 10 :=
  C1_highlight_range_clamped 3 5 10 (by decide)

/-! ## C2: the header line -/

/-- C2 counterexample: a Note-variant message still renders the header word
"error:" (with a trailing space), not "note:", refuting the claimed
per-severity header word. -/
theorem C2_note_message_header_says_error :
    (renderMessage ⟨MessageType.Note CompilationNote.Todo,
      ⟨[Component.Normal "f"], ⟨1, 1⟩, 0⟩⟩ idCache Styling.no_color "x").1 =
      "f:1:1 | error: \n" ∧
    ("f:1:1 | error: \n" : String) ≠ "f:1:1 | note:" ++ "\n" := by
  exact ⟨by decide, by decide⟩

/-- C2 (amended): whatever text a render emits starts with the header line,
which is the styled location, a bar, and the word "error:" in the
error-header style followed by a trailing space, for every payload variant;
a render that emits anything at all emits this line first. -/
theorem C2_header_always_error_word (msg : CompilationMessage) (cache : ModuleCache)
    (styling : Styling) (file_contents : String) :
    headerLine msg.location styling =
      styled styling.location (displayOwnedLocation msg.location) ++ " | " ++
        styled styling.header_error "error:" ++ " " ++ "\n" ∧
    ((renderMessage msg cache styling file_contents).1 = "" ∨
      ∃ rest, (renderMessage msg cache styling file_contents).1 =
        headerLine msg.location styling ++ rest) := by
  refine ⟨rfl, ?_⟩
  rcases hh : highlightRange msg.location.start.column msg.location.length
      (utf8Len (selectLine file_contents msg.location.start.line)) with _ | ⟨lo, hi⟩
  · left
    simp [renderMessage, hh]
  · rcases hb : messageBody msg.message cache styling with p | body
    · right
      refine ⟨"", ?_⟩
      simp [renderMessage, hh, hb, String.append_empty]
    · rcases hs : snippetLine (selectLine file_contents msg.location.start.line)
        lo hi styling with _ | snippet
      · right
        exact ⟨body, by simp [renderMessage, hh, hb, hs]⟩
      · right
        exact ⟨body ++ (snippet ++ markerLine styling (hi - lo) hi),
          by simp [renderMessage, hh, hb, hs, String.append_assoc]⟩

/-! ## C3: the body line -/

/-- C3 counterexample: the body the renderer produces for
MismatchedParameters with expected Int and got Bool under no_color is not
the claimed single-newline text; the payload Display already ends in a
newline and the renderer wraps it in a further writeln, so the body ends in
two newlines. -/
theorem C3_body_is_not_single_newline :
    messageBody (MessageType.Error (CompilationError.MismatchedParameters "Bool" "Int"))
      idCache Styling.no_color ≠
      Except.ok "Mismatched parameters: expected Int, got Bool\n" := by decide

/-- C3 (amended): every Error body is its template line followed by an
extra newline; MismatchedParameters with expected Int and got Bool under
no_color yields exactly the template text with two trailing newlines and no
emphasis markers, and RefRequiredForAssignment words its template as a
ref-a type, not a mutable-reference type. -/
theorem C3_error_body_templates :
    messageBody (MessageType.Error (CompilationError.MismatchedParameters "Bool" "Int"))
      idCache Styling.no_color =
      Except.ok "Mismatched parameters: expected Int, got Bool\n\n" ∧
    (∀ (got : Ty) (cache : ModuleCache) (styling : Styling),
      messageBody (MessageType.Error (CompilationError.RefRequiredForAssignment got))
        cache styling =
        Except.ok ("Expression of type " ++ styled styling.wrong_type (cache.nameOf got) ++
          " must be a `ref a` type to be assigned to\n\n")) ∧
    (∀ (e : CompilationError) (cache : ModuleCache) (styling : Styling),
      ∃ t, messageBody (MessageType.Error e) cache styling = Except.ok (t ++ "\n\n")) := by
  have hdisp : ∀ (e : CompilationError) (cache : ModuleCache) (styling : Styling),
      ∃ t, displayError e cache styling = t ++ "\n" := by
    intro e cache styling
    cases e <;> exact ⟨_, rfl⟩
  refine ⟨by decide, ?_, ?_⟩
  · intro got cache styling
    simp only [messageBody, displayError, String.append_assoc]
    rfl
  · intro e cache styling
    obtain ⟨t, ht⟩ := hdisp e cache styling
    refine ⟨t, ?_⟩
    simp only [messageBody, ht, String.append_assoc]
    rfl

/-! ## C4: source line beyond the end of the file -/

/-- C4 counterexample: a message whose start line exceeds the line count of
the file does make the renderer fall back to an empty line, but with start
column 2 the render then aborts on the usize underflow instead of
completing, refuting the claim that rendering such a message never fails. -/
theorem C4_line_beyond_eof_column_two_aborts :
    (rustLines "abc\n").length < 5 ∧
    renderMessage ⟨MessageType.Error (CompilationError.MismatchedParameters "Bool" "Int"),
      ⟨[Component.Normal "f"], ⟨5, 2⟩, 1⟩⟩ idCache Styling.no_color "abc\n" =
      ("", some RenderPanic.usizeUnderflow) := by decide

/-- C4 (amended): for an Error-variant message with start column 1 whose
start line exceeds the number of lines of the file, the renderer selects
the empty line and the render completes without aborting. -/
theorem C4_line_beyond_eof_uses_empty_line (e : CompilationError)
    (fname : List Component) (ln len : Nat) (cache : ModuleCache)
    (styling : Styling) (file_contents : String)
    (h : (rustLines file_contents).length < ln) :
    selectLine file_contents ln = [] ∧
    (renderMessage ⟨MessageType.Error e, ⟨fname, ⟨ln, 1⟩, len⟩⟩ cache styling
      file_contents).2 = none := by
  have hsel : selectLine file_contents ln = [] := by
    unfold selectLine
    exact List.getD_eq_default _ _ (by omega)
  refine ⟨hsel, ?_⟩
  simp [renderMessage, hsel, utf8Len, highlightRange, messageBody, snippetLine,
    takeBytes, dropBytes, Nat.min_zero]

/-- C4 witness: the amended theorem evaluated at line 5 of a one-line file. -/
theorem C4_line_beyond_eof_uses_empty_line_witness :
    (rustLines "abc\n").length < 5 ∧
    (selectLine "abc\n" 5 = [] ∧
      (renderMessage ⟨MessageType.Error (CompilationError.MismatchedParameters "Bool" "Int"),
        ⟨[Component.Normal "f"], ⟨5, 1⟩, 2⟩⟩ idCache Styling.no_color "abc\n").2 = none) :=
  ⟨by decide,
    C4_line_beyond_eof_uses_empty_line
      (CompilationError.MismatchedParameters "Bool" "Int")
      [Component.Normal "f"] 5 2 idCache Styling.no_color "abc\n" (by decide)⟩

/-! ## C5: the marker line -/

/-- C5: with end_column written as pad + location_len, exactly the shape
the renderer passes in: the marker line is nonempty precisely when
styling.underline is set or the highlighted range is empty; when emitted it
is location_len carets preceded by pad spaces plus a newline, and the run
of spaces and carets is exactly end_column columns wide, so the caret run
ends under column end_column. -/
theorem C5_marker_line_iff_underline_or_empty (styling : Styling)
    (location_len pad : Nat) :
    (markerLine styling location_len (pad + location_len) ≠ "" ↔
      (styling.underline = true ∨ location_len = 0)) ∧
    ((styling.underline = true ∨ location_len = 0) →
      markerLine styling location_len (pad + location_len) =
        String.mk (List.replicate pad ' ' ++ List.replicate location_len '^') ++ "\n") ∧
    (String.mk (List.replicate pad ' ' ++ List.replicate location_len '^')).length =
      pad + location_len := by
  have hiff : ((styling.underline || location_len == 0) = true) ↔
      (styling.underline = true ∨ location_len = 0) := by
    simp
  have hwidth : (String.mk (List.replicate pad ' ' ++
      List.replicate location_len '^')).length = pad + location_len := by
    show (List.replicate pad ' ' ++ List.replicate location_len '^').length =
      pad + location_len
    simp
  have hcaret : (caretRun location_len).length = location_len := by
    show (List.replicate location_len '^').length = location_len
    simp
  by_cases hc : (styling.underline || location_len == 0) = true
  · have hm : markerLine styling location_len (pad + location_len) =
        rjust (pad + location_len) (caretRun location_len) ++ "\n" := by
      unfold markerLine
      rw [if_pos hc]
    have hr : rjust (pad + location_len) (caretRun location_len) =
        String.mk (List.replicate pad ' ' ++ List.replicate location_len '^') := by
      unfold rjust
      rw [hcaret, Nat.add_sub_cancel]
      rfl
    refine ⟨?_, fun _ => by rw [hm, hr], hwidth⟩
    constructor
    · intro _
      exact hiff.mp hc
    · intro _
      rw [hm]
      exact append_newline_ne_empty _
  · have hm : markerLine styling location_len (pad + location_len) = "" := by
      unfold markerLine
      rw [if_neg hc]
    refine ⟨?_, fun hor => absurd (hiff.mpr hor) hc, hwidth⟩
    constructor
    · intro hne
      rw [hm] at hne
      exact absurd rfl hne
    · intro hor
      exact absurd (hiff.mpr hor) hc

/-! ## C6: pluralization of parameter -/

/-- C6: the InvalidNumberOfParameters body appends the letter s to the word
parameter exactly when the code's condition expected < 2 fails, so expected
0 and 1 stay singular and expected 2 and 5 become plural, as evaluated
concretely under no_color; the general form shows the body always splits
around the word parameter followed by that conditional suffix. -/
theorem C6_invalid_number_of_parameters_pluralization :
    displayError (CompilationError.InvalidNumberOfParameters "f" 3 0) idCache
      Styling.no_color = "Function f declared to take 0 parameter, but 3 were supplied\n" ∧
    displayError (CompilationError.InvalidNumberOfParameters "f" 3 1) idCache
      Styling.no_color = "Function f declared to take 1 parameter, but 3 were supplied\n" ∧
    displayError (CompilationError.InvalidNumberOfParameters "f" 3 2) idCache
      Styling.no_color = "Function f declared to take 2 parameters, but 3 were supplied\n" ∧
    displayError (CompilationError.InvalidNumberOfParameters "f" 3 5) idCache
      Styling.no_color = "Function f declared to take 5 parameters, but 3 were supplied\n" ∧
    (∀ (function : FunctionType) (got expected : Nat) (cache : ModuleCache)
      (styling : Styling),
      ∃ a b, displayError (CompilationError.InvalidNumberOfParameters function got expected)
        cache styling =
        a ++ "parameter" ++ (if expected < 2 then "" else "s") ++ b) := by
  refine ⟨by decide, by decide, by decide, by decide, ?_⟩
  intro function got expected cache styling
  refine ⟨"Function " ++ styled styling.wrong_type (cache.nameOf (Ty.function function)) ++
    " declared to take " ++ styled styling.type_ (toString expected) ++ " ",
    ", but " ++ styled styling.wrong_type (toString got) ++ " were supplied\n", ?_⟩
  simp only [displayError, String.append_assoc]
  rfl

/-! ## C7: Warning and Note placeholder payloads abort -/

/-- C7: rendering the placeholder Todo payload of a Warning or Note aborts
with the distinct not-implemented signal rather than returning text, and a
render of such a message never completes and never emits anything beyond
the header line. -/
theorem C7_warning_note_rendering_aborts :
    (∀ (w : CompilationWarning) (cache : ModuleCache) (styling : Styling),
      displayWarning w cache styling = Except.error RenderPanic.todoUnimplemented) ∧
    (∀ (n : CompilationNote) (cache : ModuleCache) (styling : Styling),
      displayNote n cache styling = Except.error RenderPanic.todoUnimplemented) ∧
    (∀ (w : CompilationWarning) (loc : OwnedLocation) (cache : ModuleCache)
      (styling : Styling) (file_contents : String),
      (renderMessage ⟨MessageType.Warning w, loc⟩ cache styling file_contents).2 ≠ none ∧
      ((renderMessage ⟨MessageType.Warning w, loc⟩ cache styling file_contents).1 = "" ∨
        (renderMessage ⟨MessageType.Warning w, loc⟩ cache styling file_contents).1 =
          headerLine loc styling)) ∧
    (∀ (n : CompilationNote) (loc : OwnedLocation) (cache : ModuleCache)
      (styling : Styling) (file_contents : String),
      (renderMessage ⟨MessageType.Note n, loc⟩ cache styling file_contents).2 ≠ none ∧
      ((renderMessage ⟨MessageType.Note n, loc⟩ cache styling file_contents).1 = "" ∨
        (renderMessage ⟨MessageType.Note n, loc⟩ cache styling file_contents).1 =
          headerLine loc styling)) := by
  refine ⟨fun w cache styling => by cases w; rfl,
    fun n cache styling => by cases n; rfl, ?_, ?_⟩
  · intro w loc cache styling file_contents
    cases w
    rcases hh : highlightRange loc.start.column loc.length
        (utf8Len (selectLine file_contents loc.start.line)) with _ | ⟨lo, hi⟩
    · exact ⟨by simp [renderMessage, hh], Or.inl (by simp [renderMessage, hh])⟩
    · exact ⟨by simp [renderMessage, hh, messageBody, displayWarning, Except.map],
        Or.inr (by simp [renderMessage, hh, messageBody, displayWarning, Except.map])⟩
  · intro n loc cache styling file_contents
    cases n
    rcases hh : highlightRange loc.start.column loc.length
        (utf8Len (selectLine file_contents loc.start.line)) with _ | ⟨lo, hi⟩
    · exact ⟨by simp [renderMessage, hh], Or.inl (by simp [renderMessage, hh])⟩
    · exact ⟨by simp [renderMessage, hh, messageBody, displayNote, Except.map],
        Or.inr (by simp [renderMessage, hh, messageBody, displayNote, Except.map])⟩

/-! ## C8: the path formatter -/

theorem normal_bne_root (s : String) :
    (Component.Normal s != Component.RootDir) = true := rfl

theorem drive_bne_root (s : String) :
    (Component.Drive s != Component.RootDir) = true := rfl

theorem root_bne_root : (Component.RootDir != Component.RootDir) = false := rfl

/-- C8: the path formatter renders a root as a single slash, the current
and parent directory components literally, and a host prefix as the empty
string; it inserts a slash between consecutive normal components but never
right after a root component; and the concrete component list root, a,
parent, b always formats as /a/../b. -/
theorem C8_os_agnostic_path_formatting :
    osAgnosticPath [Component.RootDir] = "/" ∧
    osAgnosticPath [Component.CurDir] = "." ∧
    osAgnosticPath [Component.ParentDir] = ".." ∧
    (∀ p, osAgnosticPath [Component.Drive p] = "") ∧
    (∀ s, osAgnosticPath [Component.Normal s] = s) ∧
    (∀ a b cs, osAgnosticPath (Component.Normal a :: Component.Normal b :: cs) =
      a ++ "/" ++ osAgnosticPath (Component.Normal b :: cs)) ∧
    (∀ c cs, osAgnosticPath (Component.RootDir :: c :: cs) =
      "/" ++ osAgnosticPath (c :: cs)) ∧
    osAgnosticPath [Component.RootDir, Component.Normal "a", Component.ParentDir,
      Component.Normal "b"] = "/a/../b" := by
  refine ⟨by decide, by decide, by decide, ?_, ?_, ?_, ?_, by decide⟩
  · intro p
    simp [osAgnosticPath, osAgnosticGo, renderComponent, drive_bne_root,
      String.empty_append, String.append_empty]
  · intro s
    simp [osAgnosticPath, osAgnosticGo, renderComponent, normal_bne_root,
      String.empty_append, String.append_empty]
  · intro a b cs
    simp [osAgnosticPath, osAgnosticGo, renderComponent, normal_bne_root,
      String.empty_append, String.append_assoc]
  · intro c cs
    simp [osAgnosticPath, osAgnosticGo, renderComponent, root_bne_root,
      String.empty_append]

/-! ## C9: is_error -/

/-- C9: is_error is true exactly when the payload is the Error variant, and
is false on every Warning-variant and Note-variant message. -/
theorem C9_is_error_iff_error_variant (m : CompilationMessage) :
    (m.is_error = true ↔ ∃ e, m.message = MessageType.Error e) ∧
    (∀ (w : CompilationWarning) (loc : OwnedLocation),
      (CompilationMessage.mk (MessageType.Warning w) loc).is_error = false) ∧
    (∀ (n : CompilationNote) (loc : OwnedLocation),
      (CompilationMessage.mk (MessageType.Note n) loc).is_error = false) := by
  refine ⟨?_, fun w loc => rfl, fun n loc => rfl⟩
  obtain ⟨mt, loc⟩ := m
  cases mt with
  | Error e => exact ⟨fun _ => ⟨e, rfl⟩, fun _ => rfl⟩
  | Warning w =>
    constructor
    · intro h
      exact absurd h (by simp [CompilationMessage.is_error])
    · rintro ⟨e, he⟩
      exact MessageType.noConfusion he
  | Note n =>
    constructor
    · intro h
      exact absurd h (by simp [CompilationMessage.is_error])
    · rintro ⟨e, he⟩
      exact MessageType.noConfusion he

/-! ## C10: multi-byte lines abort the snippet slicing -/

/-- C10: on the single-line file consisting of the two-byte character é,
a message at column 2 with span length 0 yields in-bounds byte positions
lo = hi = 1, yet the render aborts because byte index 1 is not a character
boundary of the line. -/
theorem C10_multibyte_slice_aborts :
    highlightRange 2 0 (utf8Len (String.data "é")) = some (1, 1) ∧
    1 ≤ utf8Len (String.data "é") ∧
    (renderMessage ⟨MessageType.Error (CompilationError.MismatchedParameters "Bool" "Int"),
      ⟨[Component.Normal "f"], ⟨1, 2⟩, 0⟩⟩ idCache Styling.no_color "é").2 =
      some RenderPanic.charBoundary := by decide

end Ante
